import Mathlib

/-!
Shallow embedding of the request-interception pipeline of the observer
library: the log-level selection policy shared by the HTTP middleware and
the HTTP client, the gRPC endpoint parser, and the four interception call
sites (HTTP server middleware, HTTP client `Do`, gRPC unary server
interceptor, gRPC unary client interceptor), each modelled as a pure
function from its inputs to its results together with the ordered trace of
observable instrumentation effects it performs.
-/

namespace Observer

/-- Log levels of the structured logger (zap levels used by this code). -/
inductive LogLevel where
  | debug
  | info
  | warn
  | error
  deriving DecidableEq, Repr

/-- The status-code switch shared verbatim by `ohttp.Middleware.Wrap` and
`ohttp.Client.Do`: `statusCode >= 500` logs at error, `statusCode >= 400`
at warn, and everything else (the `>= 100` case falls through to the
default) at debug when `LogInDebugLevel` is set, else at info. -/
def httpLogLevel (statusCode : Int) (logInDebugLevel : Bool) : LogLevel :=
  if 500 ≤ statusCode then .error
  else if 400 ≤ statusCode then .warn
  else if logInDebugLevel then .debug else .info

/-- The success switch of the gRPC interceptors: a nil error logs at
debug/info depending on `LogInDebugLevel`, a non-nil error at error. -/
def grpcLogLevel (success : Bool) (logInDebugLevel : Bool) : LogLevel :=
  if success then (if logInDebugLevel then .debug else .info) else .error

/-- Type `endpoint` from `ogrpc/grpc.go`: package, service and method of a
fully qualified gRPC method name. -/
structure Endpoint where
  Package : String
  Service : String
  Method : String
  deriving DecidableEq, Repr

/-- The characters matched by `fullMethodRegex`, the regular expression
`/|\.` of `ogrpc/grpc.go`. -/
def isEndpointDelim (c : Char) : Bool := c == '/' || c == '.'

/-- Embeds `regexp.Split(s, 4)` for the delimiter regular expression: splits at
the first `rem` delimiter occurrences; the remainder after the last split
is kept whole.  `acc` holds the characters of the current part in reverse. -/
def splitLimitAux : Nat → List Char → List Char → List String
  | _, [], acc => [String.mk acc.reverse]
  | rem, c :: cs, acc =>
    if rem ≠ 0 ∧ isEndpointDelim c then
      String.mk acc.reverse :: splitLimitAux (rem - 1) cs []
    else
      splitLimitAux rem cs (c :: acc)

/-- Embeds `fullMethodRegex.Split(fullMethod, 4)`: at most 4 parts. -/
def fullMethodSplit (fullMethod : String) : List String :=
  splitLimitAux 3 fullMethod.data []

/-- Embeds `parseEndpoint` from `ogrpc/grpc.go` lines 41-52: the split must yield
exactly 4 parts, whose last three are package, service and method;
otherwise the zero endpoint and false are returned. -/
def parseEndpoint (fullMethod : String) : Endpoint × Bool :=
  let subs := fullMethodSplit fullMethod
  if h : subs.length = 4 then
    ({ Package := subs.get ⟨1, by omega⟩
       Service := subs.get ⟨2, by omega⟩
       Method := subs.get ⟨3, by omega⟩ }, true)
  else
    ({ Package := "", Service := "", Method := "" }, false)

/-- Embeds `endpoint.String()` from `ogrpc/grpc.go` lines 55-61. -/
def endpointString (e : Endpoint) : String :=
  if e.Package ≠ "" ∧ e.Service ≠ "" ∧ e.Method ≠ "" then
    e.Package ++ "::" ++ e.Service ++ "::" ++ e.Method
  else ""

/-- A metric label value: the `label.String`, `label.Int` and `label.Bool`
constructors used at the call sites. -/
inductive LabelValue where
  | str (s : String)
  | int (i : Int)
  | bool (b : Bool)
  deriving DecidableEq, Repr

/-- A list of metric labels. -/
abbrev Labels := List (String × LabelValue)

/-- An observable instrumentation effect performed by a call site, in
program order.  `invokeWrapped` marks the moment the wrapped handler,
invoker or underlying client call is entered. -/
inductive Event where
  | gaugeAdd (instrument : String) (delta : Int) (labels : Labels)
  | counterAdd (instrument : String) (value : Int)
  | recordBatch (labels : Labels) (counterValue : Int) (durationValue : Int)
  | log (level : LogLevel) (message : String)
  | spanStart (name : String)
  | spanAddEvent (name : String)
  | spanSetAttributes (labels : Labels)
  | spanSetStatus (message : String)
  | spanEnd
  | sendHeader (requestUUID : String) (clientName : String)
  | setRequestHeader (key : String) (value : String)
  | invokeWrapped
  deriving DecidableEq, Repr

/-- Type `Options` from `ogrpc/grpc.go`. -/
structure Options where
  LogInDebugLevel : Bool
  ExcludedMethods : List String

/-- The outcome of a wrapped gRPC unary handler: either a normal return of
a response (nil modelled as `none`) and an error, or a panic carrying the
panic value rendered as a string. -/
inductive GrpcOutcome (α : Type) where
  | ret (resp : Option α) (err : Option String)
  | panics (msg : String)

/-- Embeds `ServerInterceptor.callUnaryHandler` from `ogrpc/server.go` lines
91-103: calls the handler; a panic is recovered, turned into the error
`panic occurred: <v>`, logged once at error level, and counted once on the
`handler_panics_total` counter (the named return `resp` stays nil). -/
def callUnaryHandler {α : Type} (outcome : GrpcOutcome α) :
    (Option α × Option String) × List Event :=
  match outcome with
  | .ret resp err => ((resp, err), [])
  | .panics msg =>
      ((none, some ("panic occurred: " ++ msg)),
       [.log .error "Panic occurred.",
        .counterAdd "handler_panics_total" 1])

/-- The labels attached to the gRPC server metrics, `stream = false` for
the unary interceptor. -/
def grpcLabels (e : Endpoint) (stream : Bool) : Labels :=
  [("package", .str e.Package), ("service", .str e.Service),
   ("method", .str e.Method), ("stream", .bool stream)]

/-- First value of a metadata key, `""` when the key has no values
(`vals := md.Get(k); if len(vals) > 0 { x = vals[0] }`). -/
def mdFirst : List String → String
  | [] => ""
  | v :: _ => v

/-- Inputs of `ServerInterceptor.unaryInterceptor`.  `genUUID` is the
value `uuid.New().String()` yields if the interceptor calls it;
`ctxUUID` is the observer UUID already stored in the incoming context, if
any; `duration` is the measured wall-clock milliseconds (opaque here). -/
structure GrpcServerInput (α : Type) where
  opts : Options
  fullMethod : String
  ctxUUID : Option String
  mdRequestUUID : List String
  mdClientName : List String
  genUUID : String
  outcome : GrpcOutcome α
  duration : Int

/-- Results of `ServerInterceptor.unaryInterceptor`: the returned response
and error, the effect trace, the observer UUID in the context the handler
receives, the response header sent via `grpc.SendHeader` (request UUID and
client name), and the `req.uuid` field of the contextualized logger. -/
structure GrpcServerResult (α : Type) where
  resp : Option α
  err : Option String
  events : List Event
  handlerCtxUUID : Option String
  sentHeader : Option (String × String)
  logFieldUUID : Option String

/-- Embeds `ServerInterceptor.unaryInterceptor` from `ogrpc/server.go` lines
105-264, current version: parse the endpoint (bypass on failure), bypass
excluded methods, add `+1` to the in-flight gauge and then immediately add
`-1` (lines 124-137: the source has no `defer` on the decrement), resolve
the request UUID from incoming metadata or generate one, read the client
name, send both back as response header metadata, start a span, build the
contextualized logger, put the UUID in the handler context, call the
handler through `callUnaryHandler`, record the counter and duration,
log at a level determined by success, set span attributes and status, and
end the span (deferred, so it closes after everything else). -/
def grpcUnaryServerInterceptor {α : Type} (inp : GrpcServerInput α) :
    GrpcServerResult α :=
  let eok := parseEndpoint inp.fullMethod
  let e := eok.1
  if eok.2 = false then
    let r := callUnaryHandler inp.outcome
    { resp := r.1.1, err := r.1.2, events := r.2,
      handlerCtxUUID := inp.ctxUUID, sentHeader := none, logFieldUUID := none }
  else if inp.opts.ExcludedMethods.any (fun m => e.Method == m) then
    let r := callUnaryHandler inp.outcome
    { resp := r.1.1, err := r.1.2, events := r.2,
      handlerCtxUUID := inp.ctxUUID, sentHeader := none, logFieldUUID := none }
  else
    let L := grpcLabels e false
    let requestUUID0 := mdFirst inp.mdRequestUUID
    let requestUUID := if requestUUID0 = "" then inp.genUUID else requestUUID0
    let clientName := mdFirst inp.mdClientName
    let r := callUnaryHandler inp.outcome
    let err := r.1.2
    let success := err.isNone
    let message := "server " ++ endpointString e ++ " " ++
      toString inp.duration ++ "ms"
    let lvl := grpcLogLevel success inp.opts.LogInDebugLevel
    { resp := r.1.1
      err := err
      events :=
        [.gaugeAdd "incoming_grpc_requests_active" 1 L,
         .gaugeAdd "incoming_grpc_requests_active" (-1) L,
         .sendHeader requestUUID clientName,
         .spanStart (e.Method ++ " (server unary)"),
         .spanAddEvent "calling grpc method handler",
         .invokeWrapped] ++ r.2 ++
        [.recordBatch (L ++ [("success", .bool success)]) 1 inp.duration,
         .log lvl message,
         .spanSetAttributes (L ++ [("success", .bool success)])] ++
        (match err with
         | some m => [.spanSetStatus m]
         | none => []) ++
        [.spanEnd]
      handlerCtxUUID := some requestUUID
      sentHeader := some (requestUUID, clientName)
      logFieldUUID := some requestUUID }

/-- Inputs of `ClientInterceptor.unaryInterceptor`: the observer UUID in
the outgoing context (`observer.UUIDFromContext`), the observer name, the
generated UUID, and the error the invoker returns. -/
structure GrpcClientInput where
  opts : Options
  fullMethod : String
  ctxUUID : Option String
  observerName : String
  genUUID : String
  invokerErr : Option String
  duration : Int

/-- Results of `ClientInterceptor.unaryInterceptor`: the returned error,
the effect trace, the `request-uuid` and `client-name` entries set on the
outgoing request metadata, and the `req.uuid` log field. -/
structure GrpcClientResult where
  err : Option String
  events : List Event
  outMDRequestUUID : Option String
  outMDClientName : Option String
  logFieldUUID : Option String

/-- Embeds `ClientInterceptor.unaryInterceptor` from `ogrpc/client.go` lines
83-217, current version: parse the endpoint (bypass on failure), bypass
excluded methods by calling the invoker directly, add `+1` to the
in-flight gauge and then immediately `-1` (lines 102-115: no `defer` in
the source), take the request UUID from the context or generate one, set
the `request-uuid` and `client-name` outgoing metadata entries, start a
span, invoke, record counter and duration, log at a level determined by
success, set span attributes and status, end the span. -/
def grpcUnaryClientInterceptor (inp : GrpcClientInput) : GrpcClientResult :=
  let eok := parseEndpoint inp.fullMethod
  let e := eok.1
  if eok.2 = false then
    { err := inp.invokerErr, events := [],
      outMDRequestUUID := none, outMDClientName := none, logFieldUUID := none }
  else if inp.opts.ExcludedMethods.any (fun m => e.Method == m) then
    { err := inp.invokerErr, events := [],
      outMDRequestUUID := none, outMDClientName := none, logFieldUUID := none }
  else
    let L := grpcLabels e false
    let requestUUID :=
      match inp.ctxUUID with
      | none => inp.genUUID
      | some u => if u = "" then inp.genUUID else u
    let err := inp.invokerErr
    let success := err.isNone
    let message := "client " ++ endpointString e ++ " " ++
      toString inp.duration ++ "ms"
    let lvl := grpcLogLevel success inp.opts.LogInDebugLevel
    { err := err
      events :=
        [.gaugeAdd "outgoing_grpc_requests_active" 1 L,
         .gaugeAdd "outgoing_grpc_requests_active" (-1) L,
         .setRequestHeader "request-uuid" requestUUID,
         .setRequestHeader "client-name" inp.observerName,
         .spanStart (e.Method ++ " (client unary)"),
         .spanAddEvent "invoking grpc method",
         .invokeWrapped,
         .recordBatch (L ++ [("success", .bool success)]) 1 inp.duration,
         .log lvl message,
         .spanSetAttributes (L ++ [("success", .bool success)])] ++
        (match err with
         | some m => [.spanSetStatus m]
         | none => []) ++
        [.spanEnd]
      outMDRequestUUID := some requestUUID
      outMDClientName := some inp.observerName
      logFieldUUID := some requestUUID }

/-- The outcome of a wrapped HTTP handler: either a normal return, or a
panic; `writes` is the first status code the handler passed to
`WriteHeader`, `none` when it never wrote one (the wrapped
`responseWriter` of `ohttp/http.go` only captures the first value). -/
inductive HttpHandlerOutcome where
  | ret (writes : Option Int)
  | panics (msg : String) (writes : Option Int)

/-- Embeds `Middleware.callHandlerFunc` from `ohttp` middleware (part_007 lines
449-460): calls the handler; a panic is recovered, logged once at error
level, counted once on `handler_panics_total`, and a 500 status is
written to the response writer (captured only if the handler had not
already written a status).  Returns the final captured status code
(0 when no status was ever written) and the effect trace. -/
def callHandlerFunc (outcome : HttpHandlerOutcome) : Int × List Event :=
  match outcome with
  | .ret (some s) => (s, [])
  | .ret none => (0, [])
  | .panics _ writes =>
      ((match writes with
        | some s => s
        | none => 500),
       [.log .error "Panic occurred.",
        .counterAdd "handler_panics_total" 1])

/-- Inputs of the wrapped handler function produced by `Middleware.Wrap`.
`route` is the value of `m.opts.IDRegexp.ReplaceAllString(url, ":id")`
(the regular-expression substitution itself is not modelled);
`headerRequestUUID` is `r.Header.Get(requestUUIDHeader)`, `""` when the
header is absent (Go `Header.Get` returns `""` for a missing key). -/
structure MiddlewareInput where
  logInDebugLevel : Bool
  method : String
  url : String
  route : String
  headerRequestUUID : String
  headerClientName : String
  genUUID : String
  outcome : HttpHandlerOutcome
  duration : Int

/-- Results of the wrapped handler of `Middleware.Wrap`: the final status
code captured by the wrapped response writer, the effect trace, the
`Request-UUID` and `Client-Name` response headers, the observer UUID in
the context the handler receives, and the `req.uuid` log field. -/
structure MiddlewareResult where
  statusCode : Int
  events : List Event
  respHeaderUUID : Option String
  respHeaderClientName : Option String
  handlerCtxUUID : Option String
  logFieldUUID : Option String

/-- The `statusClass` computation `fmt.Sprintf("%dxx", statusCode/100)` for
the non-negative status codes that reach it. -/
def statusClassOf (statusCode : Int) : String :=
  toString (statusCode / 100) ++ "xx"

/-- Embeds `Middleware.Wrap` from the `ohttp` middleware (part_007 lines
465-598), current version: add `+1` to the in-flight gauge and defer the
`-1`, resolve the request UUID from the `Request-UUID` request header or
generate one, read the `Client-Name` header, set both on the response
headers, start a span (deferred end), build the contextualized logger, put
the UUID into the handler context, call the handler through
`callHandlerFunc`, record counter and duration, log at
`httpLogLevel statusCode`, set span attributes, then run the deferred
calls in LIFO order: `span.End()` first, the gauge `-1` last. -/
def middlewareWrap (inp : MiddlewareInput) : MiddlewareResult :=
  let L : Labels := [("method", .str inp.method), ("route", .str inp.route)]
  let requestUUID :=
    if inp.headerRequestUUID = "" then inp.genUUID else inp.headerRequestUUID
  let clientName := inp.headerClientName
  let r := callHandlerFunc inp.outcome
  let statusCode := r.1
  let statusClass := statusClassOf statusCode
  let message := inp.method ++ " " ++ inp.url ++ " " ++ toString statusCode ++
    " " ++ toString inp.duration ++ "ms"
  let lvl := httpLogLevel statusCode inp.logInDebugLevel
  { statusCode := statusCode
    events :=
      [.gaugeAdd "incoming_http_requests_active" 1 L,
       .spanStart "http-server-request",
       .spanAddEvent "calling http handler",
       .invokeWrapped] ++ r.2 ++
      [.recordBatch (L ++ [("status_code", .int statusCode),
                           ("status_class", .str statusClass)]) 1 inp.duration,
       .log lvl message,
       .spanSetAttributes
         [("method", .str inp.method), ("url", .str inp.url),
          ("route", .str inp.route), ("status_code", .int statusCode)],
       .spanEnd,
       .gaugeAdd "incoming_http_requests_active" (-1) L]
    respHeaderUUID := some requestUUID
    respHeaderClientName := some clientName
    handlerCtxUUID := some requestUUID
    logFieldUUID := some requestUUID }

/-- The outcome of the underlying `http.Client.Do` call: a response with
a status code, or a transport error. -/
inductive HttpCallOutcome where
  | resp (statusCode : Int)
  | err (msg : String)
  deriving DecidableEq, Repr

/-- The `statusCode` derived from the underlying call in `Client.Do`
(`ohttp/client.go` lines 178-187): `-1` on a transport error. -/
def clientStatusCode : HttpCallOutcome → Int
  | .resp s => s
  | .err _ => -1

/-- The `statusClass` derived from the underlying call in `Client.Do`:
`""` on a transport error. -/
def clientStatusClass : HttpCallOutcome → String
  | .resp s => statusClassOf s
  | .err _ => ""

/-- Inputs of `Client.Do`. -/
structure ClientDoInput where
  logInDebugLevel : Bool
  method : String
  url : String
  route : String
  ctxUUID : Option String
  observerName : String
  genUUID : String
  outcome : HttpCallOutcome
  duration : Int

/-- Results of `Client.Do`: the returned response status (none on error)
and error, the effect trace, the `Request-UUID` and `Client-Name` headers
set on the outgoing request, and the `req.uuid` log field. -/
structure ClientDoResult where
  resp : Option Int
  err : Option String
  events : List Event
  reqHeaderUUID : Option String
  reqHeaderClientName : Option String
  logFieldUUID : Option String

/-- Embeds `Client.Do` from `ohttp/client.go` lines 130-246: add `+1` to the
in-flight gauge, take the request UUID from the context or generate one,
set the `Request-UUID` and `Client-Name` request headers, start a span
(deferred end), make the call, derive status code (-1 on error) and
class, record counter and duration, log at `httpLogLevel statusCode`, add
`-1` to the gauge, set span attributes, end the span; the response and
error of the underlying call are returned as is. -/
def clientDo (inp : ClientDoInput) : ClientDoResult :=
  let L : Labels := [("method", .str inp.method), ("route", .str inp.route)]
  let requestUUID :=
    match inp.ctxUUID with
    | none => inp.genUUID
    | some u => if u = "" then inp.genUUID else u
  let statusCode := clientStatusCode inp.outcome
  let statusClass := clientStatusClass inp.outcome
  let message := inp.method ++ " " ++ inp.url ++ " " ++ toString statusCode ++
    " " ++ toString inp.duration ++ "ms"
  let lvl := httpLogLevel statusCode inp.logInDebugLevel
  { resp :=
      match inp.outcome with
      | .resp s => some s
      | .err _ => none
    err :=
      match inp.outcome with
      | .resp _ => none
      | .err m => some m
    events :=
      [.gaugeAdd "outgoing_http_requests_active" 1 L,
       .setRequestHeader "Request-UUID" requestUUID,
       .setRequestHeader "Client-Name" inp.observerName,
       .spanStart "http-client-request",
       .spanAddEvent "making http call",
       .invokeWrapped,
       .recordBatch (L ++ [("status_code", .int statusCode),
                           ("status_class", .str statusClass)]) 1 inp.duration,
       .log lvl message,
       .gaugeAdd "outgoing_http_requests_active" (-1) L,
       .spanSetAttributes
         [("method", .str inp.method), ("url", .str inp.url),
          ("route", .str inp.route), ("status_code", .int statusCode)],
       .spanEnd]
    reqHeaderUUID := some requestUUID
    reqHeaderClientName := some inp.observerName
    logFieldUUID := some requestUUID }

/-- A plain HTTP request as built by `http.NewRequest` inside the
convenience methods: method, url, explicitly set headers, and body
(`none` for no body). -/
structure PlainRequest where
  method : String
  url : String
  headers : List (String × String)
  body : Option String
  deriving DecidableEq, Repr

/-- Result of a convenience method: the response status and error, the
request that was actually handed to the underlying standard client
(`none` when `http.NewRequest` failed and nothing was sent), and the
effect trace. -/
structure SimpleCallResult where
  resp : Option Int
  err : Option String
  sentRequest : Option PlainRequest
  events : List Event
  deriving DecidableEq, Repr

/-- Hand a request to the wrapped standard `*http.Client` (`c.client`),
modelled as a function from requests to outcomes; no instrumentation
effect is produced by the standard client itself. -/
def sendVia (send : PlainRequest → HttpCallOutcome) (req : PlainRequest) :
    SimpleCallResult :=
  match send req with
  | .resp s => { resp := some s, err := none, sentRequest := some req, events := [] }
  | .err m => { resp := none, err := some m, sentRequest := some req, events := [] }

/-- Embeds `Client.Get` from `ohttp/client.go` lines 84-91: build a GET request
(`newRequestErr` models an `http.NewRequest` failure) and send it through
the underlying standard client `c.client.Do`, not through the
instrumented `Do`. -/
def clientGet (send : PlainRequest → HttpCallOutcome) (url : String)
    (newRequestErr : Option String) : SimpleCallResult :=
  match newRequestErr with
  | some e => { resp := none, err := some e, sentRequest := none, events := [] }
  | none => sendVia send { method := "GET", url := url, headers := [], body := none }

/-- Embeds `Client.Head` from `ohttp/client.go` lines 96-103. -/
def clientHead (send : PlainRequest → HttpCallOutcome) (url : String)
    (newRequestErr : Option String) : SimpleCallResult :=
  match newRequestErr with
  | some e => { resp := none, err := some e, sentRequest := none, events := [] }
  | none => sendVia send { method := "HEAD", url := url, headers := [], body := none }

/-- Embeds `Client.Post` from `ohttp/client.go` lines 108-117: build a POST
request, set only the `Content-Type` header, and send it through the
underlying standard client. -/
def clientPost (send : PlainRequest → HttpCallOutcome) (url : String)
    (contentType : String) (body : String)
    (newRequestErr : Option String) : SimpleCallResult :=
  match newRequestErr with
  | some e => { resp := none, err := some e, sentRequest := none, events := [] }
  | none => sendVia send
      { method := "POST", url := url,
        headers := [("Content-Type", contentType)], body := some body }

/-- Embeds `Client.PostForm` from `ohttp/client.go` lines 122-127: call `Post`
with the form content type and the URL-encoded data (`encodedData` is the
value of `data.Encode()`). -/
def clientPostForm (send : PlainRequest → HttpCallOutcome) (url : String)
    (encodedData : String) (newRequestErr : Option String) : SimpleCallResult :=
  clientPost send url "application/x-www-form-urlencoded" encodedData newRequestErr

/-- Modelled from the spec: the documented behaviour of the plain
standard-library `http.Client.Get` (net/http is outside this repository):
build a GET request and send it through the client, with no
instrumentation of any kind. -/
def stdLibGet (send : PlainRequest → HttpCallOutcome) (url : String)
    (newRequestErr : Option String) : SimpleCallResult :=
  match newRequestErr with
  | some e => { resp := none, err := some e, sentRequest := none, events := [] }
  | none => sendVia send { method := "GET", url := url, headers := [], body := none }

/-- Modelled from the spec: the documented behaviour of the plain
standard-library `http.Client.Head`. -/
def stdLibHead (send : PlainRequest → HttpCallOutcome) (url : String)
    (newRequestErr : Option String) : SimpleCallResult :=
  match newRequestErr with
  | some e => { resp := none, err := some e, sentRequest := none, events := [] }
  | none => sendVia send { method := "HEAD", url := url, headers := [], body := none }

/-- Modelled from the spec: the documented behaviour of the plain
standard-library `http.Client.Post`: build a POST request carrying only
the `Content-Type` header and send it. -/
def stdLibPost (send : PlainRequest → HttpCallOutcome) (url : String)
    (contentType : String) (body : String)
    (newRequestErr : Option String) : SimpleCallResult :=
  match newRequestErr with
  | some e => { resp := none, err := some e, sentRequest := none, events := [] }
  | none => sendVia send
      { method := "POST", url := url,
        headers := [("Content-Type", contentType)], body := some body }

/-- Modelled from the spec: the documented behaviour of the plain
standard-library `http.Client.PostForm`: `Post` with the form content
type and the URL-encoded data. -/
def stdLibPostForm (send : PlainRequest → HttpCallOutcome) (url : String)
    (encodedData : String) (newRequestErr : Option String) : SimpleCallResult :=
  stdLibPost send url "application/x-www-form-urlencoded" encodedData newRequestErr

/-- The levels of the log lines of a trace, in order. -/
def logLevels (evs : List Event) : List LogLevel :=
  evs.filterMap fun e =>
    match e with
    | .log lvl _ => some lvl
    | _ => none

/-- The gauge changes of a trace, in order: instrument, delta, labels. -/
def gaugeEvents (evs : List Event) : List (String × Int × Labels) :=
  evs.filterMap fun e =>
    match e with
    | .gaugeAdd n d L => some (n, d, L)
    | _ => none

/-- How many times a trace increments the panic counter. -/
def panicCounterIncrements (evs : List Event) : Nat :=
  (evs.filter fun e =>
    match e with
    | .counterAdd "handler_panics_total" _ => true
    | _ => false).length

/-- How many error-level log lines a trace emits. -/
def errorLogCount (evs : List Event) : Nat :=
  (evs.filter fun e =>
    match e with
    | .log .error _ => true
    | _ => false).length

/-- A plain instrumented unary gRPC server call: parseable method, no
exclusions, handler returns normally. -/
def c2Input : GrpcServerInput Nat :=
  { opts := { LogInDebugLevel := false, ExcludedMethods := [] }
    fullMethod := "/userPB.UserManager/GetUser"
    ctxUUID := none
    mdRequestUUID := []
    mdClientName := []
    genUUID := "11111111-2222-3333-4444-555555555555"
    outcome := .ret (some 0) none
    duration := 7 }

/-- A middleware request whose handler answers with status code 600 and
whose debug-logging option is off. -/
def c1Input : MiddlewareInput :=
  { logInDebugLevel := false
    method := "GET"
    url := "/users"
    route := "/users"
    headerRequestUUID := "22222222-3333-4444-5555-666666666666"
    headerClientName := ""
    genUUID := "11111111-2222-3333-4444-555555555555"
    outcome := .ret (some 600)
    duration := 3 }

/-- A middleware request whose handler writes status 200 and panics
afterwards. -/
def c5Input : MiddlewareInput :=
  { logInDebugLevel := false
    method := "GET"
    url := "/users"
    route := "/users"
    headerRequestUUID := "22222222-3333-4444-5555-666666666666"
    headerClientName := ""
    genUUID := "11111111-2222-3333-4444-555555555555"
    outcome := .panics "boom" (some 200)
    duration := 3 }

/-- A unary gRPC server call to an excluded method whose handler panics. -/
def c6Input : GrpcServerInput Nat :=
  { opts := { LogInDebugLevel := false, ExcludedMethods := ["GetUser"] }
    fullMethod := "/userPB.UserManager/GetUser"
    ctxUUID := none
    mdRequestUUID := []
    mdClientName := []
    genUUID := "11111111-2222-3333-4444-555555555555"
    outcome := .panics "boom"
    duration := 0 }

/-- The gauge changes of a trace cancel: either no gauge change at all, or
exactly one increment followed by exactly one decrement of the same
instrument with the same labels. -/
def gaugeBalanced (evs : List Event) : Prop :=
  gaugeEvents evs = [] ∨
  ∃ n L, gaugeEvents evs = [(n, 1, L), (n, -1, L)]

theorem stringMkData (s : String) : String.mk s.data = s := rfl

theorem splitLimitAux_rem_zero (xs : List Char) :
    ∀ acc : List Char, splitLimitAux 0 xs acc = [String.mk (acc.reverse ++ xs)] := by
  induction xs with
  | nil => intro acc; simp [splitLimitAux]
  | cons c cs ih =>
      intro acc
      simp only [splitLimitAux, ne_eq, not_true_eq_false, false_and, if_false]
      rw [ih (c :: acc)]
      simp

theorem splitLimitAux_delimFree (xs : List Char)
    (h : ∀ c ∈ xs, isEndpointDelim c = false) :
    ∀ (rem : Nat) (ys acc : List Char),
      splitLimitAux rem (xs ++ ys) acc = splitLimitAux rem ys (xs.reverse ++ acc) := by
  induction xs with
  | nil => intro rem ys acc; simp
  | cons c cs ih =>
      intro rem ys acc
      have hc : isEndpointDelim c = false := h c (by simp)
      have hcs : ∀ x ∈ cs, isEndpointDelim x = false := fun x hx => h x (by simp [hx])
      simp only [List.cons_append, splitLimitAux, hc, Bool.false_eq_true, and_false,
        if_false, List.append_eq]
      rw [ih hcs rem ys (c :: acc)]
      simp

theorem splitLimitAux_delim (rem : Nat) (hrem : rem ≠ 0) (c : Char)
    (hc : isEndpointDelim c = true) (cs acc : List Char) :
    splitLimitAux rem (c :: cs) acc =
      String.mk acc.reverse :: splitLimitAux (rem - 1) cs [] := by
  simp [splitLimitAux, hrem, hc]

theorem splitLimitAux_length_le (xs : List Char) :
    ∀ (rem : Nat) (acc : List Char), (splitLimitAux rem xs acc).length ≤ rem + 1 := by
  induction xs with
  | nil => intro rem acc; simp [splitLimitAux]
  | cons c cs ih =>
      intro rem acc
      unfold splitLimitAux
      split
      · next hcond =>
          have h1 : rem ≠ 0 := hcond.1
          have h2 := ih (rem - 1) []
          simp only [List.length_cons]
          omega
      · exact ih rem (c :: acc)

theorem fullMethodSplit_length_le (s : String) : (fullMethodSplit s).length ≤ 4 := by
  have := splitLimitAux_length_le s.data 3 []
  simpa [fullMethodSplit] using this

theorem fullMethodSplit_form (pkg svc method : String)
    (hp : ∀ c ∈ pkg.data, isEndpointDelim c = false)
    (hs : ∀ c ∈ svc.data, isEndpointDelim c = false) :
    fullMethodSplit ("/" ++ pkg ++ "." ++ svc ++ "/" ++ method) =
      ["", pkg, svc, method] := by
  have hd : ("/" ++ pkg ++ "." ++ svc ++ "/" ++ method).data =
      '/' :: (pkg.data ++ ('.' :: (svc.data ++ ('/' :: method.data)))) := by
    simp [String.data_append]
  unfold fullMethodSplit
  rw [hd]
  rw [splitLimitAux_delim 3 (by decide) '/' (by decide)]
  rw [splitLimitAux_delimFree pkg.data hp]
  rw [show pkg.data.reverse ++ ([] : List Char) = pkg.data.reverse by simp]
  rw [splitLimitAux_delim 2 (by decide) '.' (by decide)]
  rw [splitLimitAux_delimFree svc.data hs]
  rw [show svc.data.reverse ++ ([] : List Char) = svc.data.reverse by simp]
  rw [splitLimitAux_delim 1 (by decide) '/' (by decide)]
  rw [splitLimitAux_rem_zero method.data []]
  simp [stringMkData]

theorem parseEndpoint_ok_iff (s : String) :
    (parseEndpoint s).2 = true ↔ (fullMethodSplit s).length = 4 := by
  unfold parseEndpoint
  by_cases h : (fullMethodSplit s).length = 4 <;> simp [h]

theorem parseEndpoint_not4 (s : String) (h : (fullMethodSplit s).length ≠ 4) :
    parseEndpoint s = ({ Package := "", Service := "", Method := "" }, false) := by
  unfold parseEndpoint
  simp [h]

theorem parseEndpoint_eq_of_split (s a b c d : String)
    (h : fullMethodSplit s = [a, b, c, d]) :
    parseEndpoint s = ({ Package := b, Service := c, Method := d }, true) := by
  unfold parseEndpoint
  simp [h]

theorem parseEndpoint_form (pkg svc method : String)
    (hp : ∀ c ∈ pkg.data, isEndpointDelim c = false)
    (hs : ∀ c ∈ svc.data, isEndpointDelim c = false) :
    parseEndpoint ("/" ++ pkg ++ "." ++ svc ++ "/" ++ method) =
      ({ Package := pkg, Service := svc, Method := method }, true) :=
  parseEndpoint_eq_of_split _ "" pkg svc method
    (fullMethodSplit_form pkg svc method hp hs)

/-- C9: `parseEndpoint` returns ok exactly when splitting on `/` and `.`
with limit 4 yields exactly 4 parts (the split never yields more than 4);
on `/pkg.svc/method` with delimiter-free `pkg` and `svc` it returns the
three name components, and whenever fewer than 4 parts arise it returns
the zero endpoint and false. -/
theorem claim_C9_parseEndpoint (s pkg svc method : String)
    (hp : ∀ c ∈ pkg.data, isEndpointDelim c = false)
    (hs : ∀ c ∈ svc.data, isEndpointDelim c = false) :
    ((parseEndpoint s).2 = true ↔ (fullMethodSplit s).length = 4) ∧
    (fullMethodSplit s).length ≤ 4 ∧
    parseEndpoint ("/" ++ pkg ++ "." ++ svc ++ "/" ++ method) =
      ({ Package := pkg, Service := svc, Method := method }, true) ∧
    ((fullMethodSplit s).length ≠ 4 →
      parseEndpoint s = ({ Package := "", Service := "", Method := "" }, false)) :=
  ⟨parseEndpoint_ok_iff s, fullMethodSplit_length_le s,
   parseEndpoint_form pkg svc method hp hs, parseEndpoint_not4 s⟩

/-- Witness for C9 at `s = "GetUser"`, `pkg = "userPB"`,
`svc = "UserManager"`, `method = "GetUser"`. -/
theorem claim_C9_witness :
    ((parseEndpoint "GetUser").2 = true ↔ (fullMethodSplit "GetUser").length = 4) ∧
    (fullMethodSplit "GetUser").length ≤ 4 ∧
    parseEndpoint ("/" ++ "userPB" ++ "." ++ "UserManager" ++ "/" ++ "GetUser") =
      ({ Package := "userPB", Service := "UserManager", Method := "GetUser" }, true) ∧
    ((fullMethodSplit "GetUser").length ≠ 4 →
      parseEndpoint "GetUser" = ({ Package := "", Service := "", Method := "" }, false)) :=
  claim_C9_parseEndpoint "GetUser" "userPB" "UserManager" "GetUser"
    (by decide) (by decide)

/-- C2 (code bug evaluation): on a plain instrumented unary gRPC server
call, the interceptor emits the in-flight gauge decrement as the second
event of the trace, before the handler is invoked (sixth event) — the
source lacks the `defer` its comment announces. -/
theorem claim_C2_gauge_decrement_before_handler :
    (grpcUnaryServerInterceptor c2Input).events.get? 1 =
      some (.gaugeAdd "incoming_grpc_requests_active" (-1)
        (grpcLabels
          { Package := "userPB", Service := "UserManager", Method := "GetUser" }
          false)) ∧
    (grpcUnaryServerInterceptor c2Input).events.get? 5 = some .invokeWrapped := by
  refine ⟨?_, ?_⟩ <;> rfl

/-- C1 (counterexample): a completed request whose status code is 600 lies
outside both the 500-599 and the 400-499 ranges, yet with debug logging
off the middleware emits its single log line at error level, not info. -/
theorem claim_C1_counterexample :
    (c1Input.outcome = .ret (some 600) ∧ c1Input.logInDebugLevel = false ∧
      ¬(500 ≤ (600 : Int) ∧ (600 : Int) ≤ 599) ∧
      ¬(400 ≤ (600 : Int) ∧ (600 : Int) ≤ 499)) ∧
    logLevels (middlewareWrap c1Input).events = [.error] := by
  refine ⟨⟨rfl, rfl, by decide, by decide⟩, ?_⟩
  rfl

/-- C1 (amended): the log level is chosen solely from the status code by
thresholds: any status code of 500 or above produces an error-level log,
400-499 produces warn, and everything else — status codes below 400,
including the -1 the client substitutes on a transport error — produces
info, or debug when the debug-logging option is set; both the middleware
and the client `Do` emit their request log line at exactly this level. -/
theorem claim_C1_amended_log_level_policy :
    (∀ (sc : Int) (dbg : Bool),
      (500 ≤ sc → httpLogLevel sc dbg = .error) ∧
      (400 ≤ sc → sc < 500 → httpLogLevel sc dbg = .warn) ∧
      (sc < 400 → httpLogLevel sc dbg = (if dbg then .debug else .info))) ∧
    (∀ inp : MiddlewareInput,
      (logLevels (middlewareWrap inp).events).getLast? =
        some (httpLogLevel (middlewareWrap inp).statusCode inp.logInDebugLevel)) ∧
    (∀ inp : ClientDoInput,
      (logLevels (clientDo inp).events).getLast? =
        some (httpLogLevel (clientStatusCode inp.outcome) inp.logInDebugLevel)) ∧
    (∀ msg : String, clientStatusCode (.err msg) = -1) := by
  refine ⟨fun sc dbg => ⟨?_, ?_, ?_⟩, ?_, ?_, fun msg => rfl⟩
  · intro h
    rw [httpLogLevel, if_pos h]
  · intro h1 h2
    rw [httpLogLevel, if_neg (by omega), if_pos h1]
  · intro h
    rw [httpLogLevel, if_neg (by omega), if_neg (by omega)]
  · intro inp
    rcases inp with ⟨dbg, method, url, route, hru, hcn, gen, outcome, dur⟩
    rcases outcome with (_ | s) | ⟨msg, (_ | s)⟩ <;>
      simp [middlewareWrap, callHandlerFunc, logLevels]
  · intro inp
    rcases inp with ⟨dbg, method, url, route, cu, onm, gen, outcome, dur⟩
    rcases outcome with ⟨s⟩ | ⟨msg⟩ <;>
      simp [clientDo, logLevels, clientStatusCode]

/-- Witness for C1 (amended) at status codes 503, 404, 200 and a
transport error. -/
theorem claim_C1_witness :
    httpLogLevel 503 false = .error ∧ httpLogLevel 404 false = .warn ∧
    httpLogLevel 200 false = .info ∧ httpLogLevel 200 true = .debug ∧
    clientStatusCode (.err "dial failed") = -1 ∧
    httpLogLevel (clientStatusCode (.err "dial failed")) false = .info := by
  refine ⟨(claim_C1_amended_log_level_policy.1 503 false).1 (by decide),
    (claim_C1_amended_log_level_policy.1 404 false).2.1 (by decide) (by decide),
    (claim_C1_amended_log_level_policy.1 200 false).2.2 (by decide),
    ?_, claim_C1_amended_log_level_policy.2.2.2 "dial failed", ?_⟩
  · have h := (claim_C1_amended_log_level_policy.1 200 true).2.2 (by decide)
    simpa using h
  · have h := (claim_C1_amended_log_level_policy.1 (-1) false).2.2 (by decide)
    simpa using h

theorem grpcServer_not_excluded_fields (inp : GrpcServerInput Nat)
    (hok : (parseEndpoint inp.fullMethod).2 = true)
    (hex : (parseEndpoint inp.fullMethod).1.Method ∉ inp.opts.ExcludedMethods) :
    (grpcUnaryServerInterceptor inp).handlerCtxUUID =
      some (if mdFirst inp.mdRequestUUID = "" then inp.genUUID
            else mdFirst inp.mdRequestUUID) ∧
    (grpcUnaryServerInterceptor inp).sentHeader =
      some ((if mdFirst inp.mdRequestUUID = "" then inp.genUUID
             else mdFirst inp.mdRequestUUID), mdFirst inp.mdClientName) ∧
    (grpcUnaryServerInterceptor inp).logFieldUUID =
      some (if mdFirst inp.mdRequestUUID = "" then inp.genUUID
            else mdFirst inp.mdRequestUUID) := by
  have hany : inp.opts.ExcludedMethods.any
      (fun m => (parseEndpoint inp.fullMethod).1.Method == m) = false := by
    simp only [List.any_eq_false, beq_iff_eq]
    intro m hm h
    exact hex (h ▸ hm)
  unfold grpcUnaryServerInterceptor
  simp [hok, hany]

/-- C3: an inbound request with no (or an empty) correlation-id entry gets
a freshly generated identifier, which is what the downstream handler sees
in its context and what the response header/metadata carries, at the HTTP
middleware and at the instrumented gRPC unary server interceptor. -/
theorem claim_C3_fresh_uuid_generated (minp : MiddlewareInput)
    (ginp : GrpcServerInput Nat)
    (hm : minp.headerRequestUUID = "")
    (hok : (parseEndpoint ginp.fullMethod).2 = true)
    (hex : (parseEndpoint ginp.fullMethod).1.Method ∉ ginp.opts.ExcludedMethods)
    (hgmd : mdFirst ginp.mdRequestUUID = "") :
    (middlewareWrap minp).handlerCtxUUID = some minp.genUUID ∧
    (middlewareWrap minp).respHeaderUUID = some minp.genUUID ∧
    (grpcUnaryServerInterceptor ginp).handlerCtxUUID = some ginp.genUUID ∧
    (grpcUnaryServerInterceptor ginp).sentHeader =
      some (ginp.genUUID, mdFirst ginp.mdClientName) := by
  obtain ⟨h1, h2, _⟩ := grpcServer_not_excluded_fields ginp hok hex
  refine ⟨?_, ?_, ?_, ?_⟩
  · simp [middlewareWrap, hm]
  · simp [middlewareWrap, hm]
  · rw [h1, hgmd]; simp
  · rw [h2, hgmd]; simp

/-- Witness for C3: middleware request with no `Request-UUID` header and
an instrumented gRPC call with no `request-uuid` metadata. -/
theorem claim_C3_witness :
    (middlewareWrap
      { logInDebugLevel := false, method := "GET", url := "/items",
        route := "/items", headerRequestUUID := "", headerClientName := "",
        genUUID := "aaaaaaaa-bbbb-cccc-dddd-eeeeeeeeeeee",
        outcome := .ret (some 200), duration := 2 }).handlerCtxUUID =
      some "aaaaaaaa-bbbb-cccc-dddd-eeeeeeeeeeee" ∧
    (middlewareWrap
      { logInDebugLevel := false, method := "GET", url := "/items",
        route := "/items", headerRequestUUID := "", headerClientName := "",
        genUUID := "aaaaaaaa-bbbb-cccc-dddd-eeeeeeeeeeee",
        outcome := .ret (some 200), duration := 2 }).respHeaderUUID =
      some "aaaaaaaa-bbbb-cccc-dddd-eeeeeeeeeeee" ∧
    (grpcUnaryServerInterceptor (α := Nat)
      { opts := { LogInDebugLevel := false, ExcludedMethods := [] },
        fullMethod := "/userPB.UserManager/GetUser", ctxUUID := none,
        mdRequestUUID := [], mdClientName := [],
        genUUID := "aaaaaaaa-bbbb-cccc-dddd-eeeeeeeeeeee",
        outcome := .ret (some 0) none, duration := 2 }).handlerCtxUUID =
      some "aaaaaaaa-bbbb-cccc-dddd-eeeeeeeeeeee" ∧
    (grpcUnaryServerInterceptor (α := Nat)
      { opts := { LogInDebugLevel := false, ExcludedMethods := [] },
        fullMethod := "/userPB.UserManager/GetUser", ctxUUID := none,
        mdRequestUUID := [], mdClientName := [],
        genUUID := "aaaaaaaa-bbbb-cccc-dddd-eeeeeeeeeeee",
        outcome := .ret (some 0) none, duration := 2 }).sentHeader =
      some ("aaaaaaaa-bbbb-cccc-dddd-eeeeeeeeeeee", "") :=
  claim_C3_fresh_uuid_generated _ _ rfl (by decide) (by decide) rfl

/-- C4: an inbound request that already carries a non-empty correlation
id keeps exactly that value in the downstream handler context, in the
`req.uuid` log field, and in the outgoing response header/metadata, at
the HTTP middleware and at the instrumented gRPC unary server
interceptor. -/
theorem claim_C4_existing_uuid_preserved (v : String) (hv : v ≠ "")
    (minp : MiddlewareInput) (ginp : GrpcServerInput Nat)
    (hm : minp.headerRequestUUID = v)
    (hok : (parseEndpoint ginp.fullMethod).2 = true)
    (hex : (parseEndpoint ginp.fullMethod).1.Method ∉ ginp.opts.ExcludedMethods)
    (hgmd : mdFirst ginp.mdRequestUUID = v) :
    (middlewareWrap minp).handlerCtxUUID = some v ∧
    (middlewareWrap minp).respHeaderUUID = some v ∧
    (middlewareWrap minp).logFieldUUID = some v ∧
    (grpcUnaryServerInterceptor ginp).handlerCtxUUID = some v ∧
    (grpcUnaryServerInterceptor ginp).sentHeader =
      some (v, mdFirst ginp.mdClientName) ∧
    (grpcUnaryServerInterceptor ginp).logFieldUUID = some v := by
  obtain ⟨h1, h2, h3⟩ := grpcServer_not_excluded_fields ginp hok hex
  refine ⟨?_, ?_, ?_, ?_, ?_, ?_⟩
  · simp [middlewareWrap, hm, hv]
  · simp [middlewareWrap, hm, hv]
  · simp [middlewareWrap, hm, hv]
  · rw [h1, hgmd]; simp [hv]
  · rw [h2, hgmd]; simp [hv]
  · rw [h3, hgmd]; simp [hv]

/-- Witness for C4 with correlation id `"existing-id-7"`. -/
theorem claim_C4_witness :
    (middlewareWrap
      { logInDebugLevel := false, method := "PUT", url := "/items",
        route := "/items", headerRequestUUID := "existing-id-7",
        headerClientName := "cl", genUUID := "gen-id",
        outcome := .ret (some 204), duration := 2 }).handlerCtxUUID =
      some "existing-id-7" ∧
    (middlewareWrap
      { logInDebugLevel := false, method := "PUT", url := "/items",
        route := "/items", headerRequestUUID := "existing-id-7",
        headerClientName := "cl", genUUID := "gen-id",
        outcome := .ret (some 204), duration := 2 }).respHeaderUUID =
      some "existing-id-7" ∧
    (middlewareWrap
      { logInDebugLevel := false, method := "PUT", url := "/items",
        route := "/items", headerRequestUUID := "existing-id-7",
        headerClientName := "cl", genUUID := "gen-id",
        outcome := .ret (some 204), duration := 2 }).logFieldUUID =
      some "existing-id-7" ∧
    (grpcUnaryServerInterceptor (α := Nat)
      { opts := { LogInDebugLevel := false, ExcludedMethods := [] },
        fullMethod := "/userPB.UserManager/GetUser", ctxUUID := none,
        mdRequestUUID := ["existing-id-7"], mdClientName := ["cl"],
        genUUID := "gen-id", outcome := .ret (some 0) none,
        duration := 2 }).handlerCtxUUID = some "existing-id-7" ∧
    (grpcUnaryServerInterceptor (α := Nat)
      { opts := { LogInDebugLevel := false, ExcludedMethods := [] },
        fullMethod := "/userPB.UserManager/GetUser", ctxUUID := none,
        mdRequestUUID := ["existing-id-7"], mdClientName := ["cl"],
        genUUID := "gen-id", outcome := .ret (some 0) none,
        duration := 2 }).sentHeader = some ("existing-id-7", "cl") ∧
    (grpcUnaryServerInterceptor (α := Nat)
      { opts := { LogInDebugLevel := false, ExcludedMethods := [] },
        fullMethod := "/userPB.UserManager/GetUser", ctxUUID := none,
        mdRequestUUID := ["existing-id-7"], mdClientName := ["cl"],
        genUUID := "gen-id", outcome := .ret (some 0) none,
        duration := 2 }).logFieldUUID = some "existing-id-7" :=
  claim_C4_existing_uuid_preserved "existing-id-7" (by decide) _ _ rfl
    (by decide) (by decide) rfl

theorem grpcServer_passthrough (inp : GrpcServerInput Nat) :
    (grpcUnaryServerInterceptor inp).resp = (callUnaryHandler inp.outcome).1.1 ∧
    (grpcUnaryServerInterceptor inp).err = (callUnaryHandler inp.outcome).1.2 := by
  unfold grpcUnaryServerInterceptor
  by_cases h1 : (parseEndpoint inp.fullMethod).2 = false
  · simp [h1]
  · by_cases h2 : (inp.opts.ExcludedMethods.any
        fun m => (parseEndpoint inp.fullMethod).1.Method == m) = true
    · simp [h1, h2]
    · simp [h1, h2]

theorem grpcClient_passthrough (inp : GrpcClientInput) :
    (grpcUnaryClientInterceptor inp).err = inp.invokerErr := by
  unfold grpcUnaryClientInterceptor
  by_cases h1 : (parseEndpoint inp.fullMethod).2 = false
  · simp [h1]
  · by_cases h2 : (inp.opts.ExcludedMethods.any
        fun m => (parseEndpoint inp.fullMethod).1.Method == m) = true
    · simp [h1, h2]
    · simp [h1, h2]

theorem middleware_status_eq (inp : MiddlewareInput) :
    (middlewareWrap inp).statusCode = (callHandlerFunc inp.outcome).1 := rfl

/-- C5 (counterexample): a handler that writes status 200 and only then
panics is recovered and counted by the middleware, yet the client keeps
the already-committed 200 — the recovery's `WriteHeader(500)` is dropped
by the first-write-wins response writer, so no generic server error
reaches the client. -/
theorem claim_C5_counterexample :
    c5Input.outcome = .panics "boom" (some 200) ∧
    (middlewareWrap c5Input).statusCode = 200 ∧
    (middlewareWrap c5Input).statusCode ≠ 500 ∧
    panicCounterIncrements (middlewareWrap c5Input).events = 1 := by
  refine ⟨rfl, rfl, by decide, rfl⟩

/-- C5 (amended): a panic in a wrapped server handler is recovered: the
panic counter is incremented exactly once, exactly one error-level log
line is emitted by the recovery, and the gRPC interceptor returns a
non-nil error instead of crashing; the HTTP middleware writes status 500,
which reaches the client only when the handler had not already written a
status — a handler that committed a status before panicking leaves that
earlier status in place. -/
theorem claim_C5_panic_recovery (msg : String) (writes : Option Int) :
    (panicCounterIncrements (callHandlerFunc (.panics msg writes)).2 = 1 ∧
     errorLogCount (callHandlerFunc (.panics msg writes)).2 = 1 ∧
     (writes = none → (callHandlerFunc (.panics msg writes)).1 = 500) ∧
     (∀ s, writes = some s → (callHandlerFunc (.panics msg writes)).1 = s)) ∧
    (panicCounterIncrements (callUnaryHandler (α := Nat) (.panics msg)).2 = 1 ∧
     errorLogCount (callUnaryHandler (α := Nat) (.panics msg)).2 = 1 ∧
     (callUnaryHandler (α := Nat) (.panics msg)).1.2 =
       some ("panic occurred: " ++ msg) ∧
     (callUnaryHandler (α := Nat) (.panics msg)).1.1 = none) ∧
    (∀ minp : MiddlewareInput, minp.outcome = .panics msg none →
      (middlewareWrap minp).statusCode = 500) ∧
    (∀ (minp : MiddlewareInput) (s : Int),
      minp.outcome = .panics msg (some s) →
      (middlewareWrap minp).statusCode = s) ∧
    (∀ ginp : GrpcServerInput Nat, ginp.outcome = .panics msg →
      (grpcUnaryServerInterceptor ginp).err =
        some ("panic occurred: " ++ msg)) := by
  refine ⟨⟨rfl, rfl, ?_, ?_⟩, ⟨rfl, rfl, rfl, rfl⟩, ?_, ?_, ?_⟩
  · intro h
    subst h
    rfl
  · intro s h
    subst h
    rfl
  · intro minp h
    rw [middleware_status_eq, h]
    rfl
  · intro minp s h
    rw [middleware_status_eq, h]
    rfl
  · intro ginp h
    rw [(grpcServer_passthrough ginp).2, h]
    rfl

/-- Witness for C5 with panic message `"boom"`: no prior write gives 500,
a committed 200 stays 200. -/
theorem claim_C5_witness :
    (callHandlerFunc (.panics "boom" none)).1 = 500 ∧
    panicCounterIncrements (callHandlerFunc (.panics "boom" none)).2 = 1 ∧
    errorLogCount (callHandlerFunc (.panics "boom" none)).2 = 1 ∧
    (callHandlerFunc (.panics "boom" (some 200))).1 = 200 ∧
    (callUnaryHandler (α := Nat) (.panics "boom")).1.2 =
      some ("panic occurred: " ++ "boom") ∧
    (middlewareWrap
      { logInDebugLevel := false, method := "GET", url := "/x", route := "/x",
        headerRequestUUID := "u", headerClientName := "", genUUID := "g",
        outcome := .panics "boom" none, duration := 1 }).statusCode = 500 := by
  obtain ⟨⟨h1, h2, h3, _⟩, ⟨_, _, h4, _⟩, h5, _, _⟩ :=
    claim_C5_panic_recovery "boom" none
  obtain ⟨⟨_, _, _, hsome⟩, _, _, _, _⟩ :=
    claim_C5_panic_recovery "boom" (some 200)
  exact ⟨h3 rfl, h1, h2, hsome 200 rfl, h4, h5 _ rfl⟩

/-- C7: the error (or response) of the wrapped call is handed back to the
caller unmodified at all four interception call sites: the gRPC server
returns the handler's response and error, the gRPC client returns the
invoker's error, the middleware's response keeps the status code the
handler wrote, and `Client.Do` returns the underlying response and error
as is. -/
theorem claim_C7_error_passthrough
    (ginp : GrpcServerInput Nat) (r : Option Nat) (e : Option String)
    (hret : ginp.outcome = .ret r e)
    (cinp : GrpcClientInput)
    (minp : MiddlewareInput) (w : Int) (hw : minp.outcome = .ret (some w))
    (dinp : ClientDoInput) :
    ((grpcUnaryServerInterceptor ginp).resp = r ∧
     (grpcUnaryServerInterceptor ginp).err = e) ∧
    (grpcUnaryClientInterceptor cinp).err = cinp.invokerErr ∧
    (middlewareWrap minp).statusCode = w ∧
    ((∀ s, dinp.outcome = .resp s →
        (clientDo dinp).resp = some s ∧ (clientDo dinp).err = none) ∧
     (∀ m, dinp.outcome = .err m →
        (clientDo dinp).resp = none ∧ (clientDo dinp).err = some m)) := by
  obtain ⟨h1, h2⟩ := grpcServer_passthrough ginp
  refine ⟨⟨?_, ?_⟩, grpcClient_passthrough cinp, ?_, ?_, ?_⟩
  · rw [h1, hret]
    rfl
  · rw [h2, hret]
    rfl
  · rw [middleware_status_eq, hw]
    rfl
  · intro s h
    simp [clientDo, h]
  · intro m h
    simp [clientDo, h]

/-- Witness for C7: handler returning response 3 with no error, handler
writing 201, underlying client answering 200 and failing with an error. -/
theorem claim_C7_witness :
    (grpcUnaryServerInterceptor (α := Nat)
      { opts := { LogInDebugLevel := false, ExcludedMethods := [] },
        fullMethod := "/userPB.UserManager/GetUser", ctxUUID := none,
        mdRequestUUID := [], mdClientName := [], genUUID := "g",
        outcome := .ret (some 3) none, duration := 1 }).resp = some 3 ∧
    (grpcUnaryClientInterceptor
      { opts := { LogInDebugLevel := false, ExcludedMethods := [] },
        fullMethod := "/userPB.UserManager/GetUser", ctxUUID := none,
        observerName := "me", genUUID := "g",
        invokerErr := some "rpc error", duration := 1 }).err =
      some "rpc error" ∧
    (middlewareWrap
      { logInDebugLevel := false, method := "POST", url := "/x", route := "/x",
        headerRequestUUID := "u", headerClientName := "", genUUID := "g",
        outcome := .ret (some 201), duration := 1 }).statusCode = 201 ∧
    (clientDo
      { logInDebugLevel := false, method := "GET", url := "/x", route := "/x",
        ctxUUID := none, observerName := "me", genUUID := "g",
        outcome := .resp 200, duration := 1 }).resp = some 200 ∧
    (clientDo
      { logInDebugLevel := false, method := "GET", url := "/x", route := "/x",
        ctxUUID := none, observerName := "me", genUUID := "g",
        outcome := .err "dial failed", duration := 1 }).err =
      some "dial failed" := by
  obtain ⟨⟨ha, _⟩, hb, hc, hd, _⟩ :=
    claim_C7_error_passthrough
      { opts := { LogInDebugLevel := false, ExcludedMethods := [] },
        fullMethod := "/userPB.UserManager/GetUser", ctxUUID := none,
        mdRequestUUID := [], mdClientName := [], genUUID := "g",
        outcome := .ret (some 3) none, duration := 1 }
      (some 3) none rfl
      { opts := { LogInDebugLevel := false, ExcludedMethods := [] },
        fullMethod := "/userPB.UserManager/GetUser", ctxUUID := none,
        observerName := "me", genUUID := "g",
        invokerErr := some "rpc error", duration := 1 }
      { logInDebugLevel := false, method := "POST", url := "/x", route := "/x",
        headerRequestUUID := "u", headerClientName := "", genUUID := "g",
        outcome := .ret (some 201), duration := 1 }
      201 rfl
      { logInDebugLevel := false, method := "GET", url := "/x", route := "/x",
        ctxUUID := none, observerName := "me", genUUID := "g",
        outcome := .resp 200, duration := 1 }
  refine ⟨ha, hb, hc, (hd 200 rfl).1, ?_⟩
  obtain ⟨_, _, _, _, he⟩ :=
    claim_C7_error_passthrough
      { opts := { LogInDebugLevel := false, ExcludedMethods := [] },
        fullMethod := "/userPB.UserManager/GetUser", ctxUUID := none,
        mdRequestUUID := [], mdClientName := [], genUUID := "g",
        outcome := .ret (some 3) none, duration := 1 }
      (some 3) none rfl
      { opts := { LogInDebugLevel := false, ExcludedMethods := [] },
        fullMethod := "/userPB.UserManager/GetUser", ctxUUID := none,
        observerName := "me", genUUID := "g",
        invokerErr := some "rpc error", duration := 1 }
      { logInDebugLevel := false, method := "POST", url := "/x", route := "/x",
        headerRequestUUID := "u", headerClientName := "", genUUID := "g",
        outcome := .ret (some 201), duration := 1 }
      201 rfl
      { logInDebugLevel := false, method := "GET", url := "/x", route := "/x",
        ctxUUID := none, observerName := "me", genUUID := "g",
        outcome := .err "dial failed", duration := 1 }
  exact (he "dial failed" rfl).2

/-- C6 (counterexample): a call to an excluded method whose handler
panics is still instrumented by the server interceptor: the panic counter
is incremented, an error log line is emitted, and the result (a non-nil
error) differs from the un-intercepted call, which would propagate the
panic. -/
theorem claim_C6_counterexample :
    (parseEndpoint c6Input.fullMethod).1.Method ∈ c6Input.opts.ExcludedMethods ∧
    (grpcUnaryServerInterceptor c6Input).events =
      [.log .error "Panic occurred.", .counterAdd "handler_panics_total" 1] ∧
    panicCounterIncrements (grpcUnaryServerInterceptor c6Input).events = 1 ∧
    (grpcUnaryServerInterceptor c6Input).err = some "panic occurred: boom" := by
  refine ⟨by decide, rfl, rfl, rfl⟩

theorem grpcServer_excluded_eq (inp : GrpcServerInput Nat)
    (hok : (parseEndpoint inp.fullMethod).2 = true)
    (hex : (parseEndpoint inp.fullMethod).1.Method ∈ inp.opts.ExcludedMethods) :
    grpcUnaryServerInterceptor inp =
      { resp := (callUnaryHandler inp.outcome).1.1
        err := (callUnaryHandler inp.outcome).1.2
        events := (callUnaryHandler inp.outcome).2
        handlerCtxUUID := inp.ctxUUID
        sentHeader := none
        logFieldUUID := none } := by
  have hany : inp.opts.ExcludedMethods.any
      (fun m => (parseEndpoint inp.fullMethod).1.Method == m) = true := by
    simp only [List.any_eq_true, beq_iff_eq]
    exact ⟨_, hex, rfl⟩
  unfold grpcUnaryServerInterceptor
  simp [hok, hany]

theorem grpcClient_excluded_eq (inp : GrpcClientInput)
    (hok : (parseEndpoint inp.fullMethod).2 = true)
    (hex : (parseEndpoint inp.fullMethod).1.Method ∈ inp.opts.ExcludedMethods) :
    grpcUnaryClientInterceptor inp =
      { err := inp.invokerErr
        events := []
        outMDRequestUUID := none
        outMDClientName := none
        logFieldUUID := none } := by
  have hany : inp.opts.ExcludedMethods.any
      (fun m => (parseEndpoint inp.fullMethod).1.Method == m) = true := by
    simp only [List.any_eq_true, beq_iff_eq]
    exact ⟨_, hex, rfl⟩
  unfold grpcUnaryClientInterceptor
  simp [hok, hany]

/-- C6 (amended): for a call whose parsed method is excluded, the client
interceptor invokes the invoker directly with no instrumentation and
returns its result unchanged; the server interceptor performs no
per-request instrumentation either (no gauge change, no request counter
or duration, no correlation id, no span, no request log line, no response
header) and hands back the handler's outcome unchanged — except that the
call still goes through the panic-recovery wrapper, so a panicking
handler is recovered, logged once at error level and counted once on the
panic counter instead of propagating. -/
theorem claim_C6_amended_excluded_bypass (ginp : GrpcServerInput Nat)
    (cinp : GrpcClientInput)
    (hgok : (parseEndpoint ginp.fullMethod).2 = true)
    (hgex : (parseEndpoint ginp.fullMethod).1.Method ∈ ginp.opts.ExcludedMethods)
    (hcok : (parseEndpoint cinp.fullMethod).2 = true)
    (hcex : (parseEndpoint cinp.fullMethod).1.Method ∈ cinp.opts.ExcludedMethods) :
    (grpcUnaryClientInterceptor cinp).events = [] ∧
    (grpcUnaryClientInterceptor cinp).err = cinp.invokerErr ∧
    (grpcUnaryClientInterceptor cinp).outMDRequestUUID = none ∧
    (grpcUnaryServerInterceptor ginp).events = (callUnaryHandler ginp.outcome).2 ∧
    (grpcUnaryServerInterceptor ginp).resp = (callUnaryHandler ginp.outcome).1.1 ∧
    (grpcUnaryServerInterceptor ginp).err = (callUnaryHandler ginp.outcome).1.2 ∧
    (grpcUnaryServerInterceptor ginp).sentHeader = none ∧
    (∀ (r : Option Nat) (e : Option String), ginp.outcome = .ret r e →
      (grpcUnaryServerInterceptor ginp).events = [] ∧
      (grpcUnaryServerInterceptor ginp).resp = r ∧
      (grpcUnaryServerInterceptor ginp).err = e) ∧
    (∀ msg, ginp.outcome = .panics msg →
      panicCounterIncrements (grpcUnaryServerInterceptor ginp).events = 1 ∧
      errorLogCount (grpcUnaryServerInterceptor ginp).events = 1) := by
  have hs := grpcServer_excluded_eq ginp hgok hgex
  have hc := grpcClient_excluded_eq cinp hcok hcex
  rw [hs, hc]
  refine ⟨rfl, rfl, rfl, rfl, rfl, rfl, rfl, ?_, ?_⟩
  · intro r e h
    rw [h]
    exact ⟨rfl, rfl, rfl⟩
  · intro msg h
    rw [h]
    exact ⟨rfl, rfl⟩

/-- Witness for C6 (amended): excluded method `"GetUser"`, handler
returning response 5, invoker failing. -/
theorem claim_C6_witness :
    (grpcUnaryClientInterceptor
      { opts := { LogInDebugLevel := false, ExcludedMethods := ["GetUser"] },
        fullMethod := "/userPB.UserManager/GetUser", ctxUUID := none,
        observerName := "me", genUUID := "g",
        invokerErr := some "rpc error", duration := 1 }).events = [] ∧
    (grpcUnaryClientInterceptor
      { opts := { LogInDebugLevel := false, ExcludedMethods := ["GetUser"] },
        fullMethod := "/userPB.UserManager/GetUser", ctxUUID := none,
        observerName := "me", genUUID := "g",
        invokerErr := some "rpc error", duration := 1 }).err =
      some "rpc error" ∧
    (grpcUnaryServerInterceptor (α := Nat)
      { opts := { LogInDebugLevel := false, ExcludedMethods := ["GetUser"] },
        fullMethod := "/userPB.UserManager/GetUser", ctxUUID := none,
        mdRequestUUID := [], mdClientName := [], genUUID := "g",
        outcome := .ret (some 5) none, duration := 1 }).events = [] ∧
    (grpcUnaryServerInterceptor (α := Nat)
      { opts := { LogInDebugLevel := false, ExcludedMethods := ["GetUser"] },
        fullMethod := "/userPB.UserManager/GetUser", ctxUUID := none,
        mdRequestUUID := [], mdClientName := [], genUUID := "g",
        outcome := .ret (some 5) none, duration := 1 }).resp = some 5 := by
  obtain ⟨ha, hb, _, _, _, _, _, hg, _⟩ :=
    claim_C6_amended_excluded_bypass
      { opts := { LogInDebugLevel := false, ExcludedMethods := ["GetUser"] },
        fullMethod := "/userPB.UserManager/GetUser", ctxUUID := none,
        mdRequestUUID := [], mdClientName := [], genUUID := "g",
        outcome := .ret (some 5) none, duration := 1 }
      { opts := { LogInDebugLevel := false, ExcludedMethods := ["GetUser"] },
        fullMethod := "/userPB.UserManager/GetUser", ctxUUID := none,
        observerName := "me", genUUID := "g",
        invokerErr := some "rpc error", duration := 1 }
      (by decide) (by decide) (by decide) (by decide)
  obtain ⟨h3, h4, _⟩ := hg (some 5) none rfl
  exact ⟨ha, hb, h3, h4⟩

theorem gaugeBalanced_callUnaryHandler (o : GrpcOutcome Nat) :
    gaugeBalanced (callUnaryHandler o).2 := by
  rcases o with ⟨resp, err⟩ | ⟨msg⟩ <;>
    simp [callUnaryHandler, gaugeBalanced, gaugeEvents]

theorem gaugeBalanced_grpcServer (inp : GrpcServerInput Nat) :
    gaugeBalanced (grpcUnaryServerInterceptor inp).events := by
  unfold grpcUnaryServerInterceptor
  by_cases h1 : (parseEndpoint inp.fullMethod).2 = false
  · simpa [h1] using gaugeBalanced_callUnaryHandler inp.outcome
  · by_cases h2 : (inp.opts.ExcludedMethods.any
        fun m => (parseEndpoint inp.fullMethod).1.Method == m) = true
    · simpa [h1, h2] using gaugeBalanced_callUnaryHandler inp.outcome
    · unfold gaugeBalanced
      right
      refine ⟨"incoming_grpc_requests_active",
        grpcLabels (parseEndpoint inp.fullMethod).1 false, ?_⟩
      rcases houtcome : inp.outcome with ⟨resp, err⟩ | ⟨msg⟩
      · rcases err with _ | m <;>
          simp [h1, h2, houtcome, callUnaryHandler, gaugeEvents]
      · simp [h1, h2, houtcome, callUnaryHandler, gaugeEvents]

theorem gaugeBalanced_grpcClient (inp : GrpcClientInput) :
    gaugeBalanced (grpcUnaryClientInterceptor inp).events := by
  unfold grpcUnaryClientInterceptor
  by_cases h1 : (parseEndpoint inp.fullMethod).2 = false
  · simp [h1, gaugeBalanced, gaugeEvents]
  · by_cases h2 : (inp.opts.ExcludedMethods.any
        fun m => (parseEndpoint inp.fullMethod).1.Method == m) = true
    · simp [h1, h2, gaugeBalanced, gaugeEvents]
    · unfold gaugeBalanced
      right
      refine ⟨"outgoing_grpc_requests_active",
        grpcLabels (parseEndpoint inp.fullMethod).1 false, ?_⟩
      rcases inp.invokerErr with _ | m <;>
        simp [h1, h2, gaugeEvents]

theorem gaugeBalanced_middleware (inp : MiddlewareInput) :
    gaugeBalanced (middlewareWrap inp).events := by
  obtain ⟨dbg, method, url, route, hru, hcn, gen, outcome, dur⟩ := inp
  unfold gaugeBalanced
  right
  refine ⟨"incoming_http_requests_active",
    [("method", .str method), ("route", .str route)], ?_⟩
  rcases outcome with (_ | s) | ⟨msg, (_ | s)⟩ <;>
    simp [middlewareWrap, callHandlerFunc, gaugeEvents]

theorem gaugeBalanced_clientDo (inp : ClientDoInput) :
    gaugeBalanced (clientDo inp).events := by
  obtain ⟨dbg, method, url, route, cu, onm, gen, outcome, dur⟩ := inp
  unfold gaugeBalanced
  right
  refine ⟨"outgoing_http_requests_active",
    [("method", .str method), ("route", .str route)], ?_⟩
  rcases outcome with ⟨s⟩ | ⟨msg⟩ <;>
    simp [clientDo, gaugeEvents]

/-- C8: at every interception call site, on every input — success,
failure, or a recovered panic of the wrapped handler — the in-flight
gauge changes of the trace cancel by the time the call returns: either no
gauge change happens at all (bypass paths) or there is exactly one
increment matched by exactly one decrement of the same instrument with
the same labels. -/
theorem claim_C8_gauge_balanced (ginp : GrpcServerInput Nat)
    (cinp : GrpcClientInput) (minp : MiddlewareInput) (dinp : ClientDoInput) :
    gaugeBalanced (grpcUnaryServerInterceptor ginp).events ∧
    gaugeBalanced (grpcUnaryClientInterceptor cinp).events ∧
    gaugeBalanced (middlewareWrap minp).events ∧
    gaugeBalanced (clientDo dinp).events :=
  ⟨gaugeBalanced_grpcServer ginp, gaugeBalanced_grpcClient cinp,
   gaugeBalanced_middleware minp, gaugeBalanced_clientDo dinp⟩

theorem sendVia_events_nil (send : PlainRequest → HttpCallOutcome)
    (req : PlainRequest) : (sendVia send req).events = [] := by
  rcases h : send req with s | m <;> simp [sendVia, h]

theorem sendVia_sent_eq (send : PlainRequest → HttpCallOutcome)
    (req q : PlainRequest) (h : (sendVia send req).sentRequest = some q) :
    q = req := by
  rcases hs : send req with s | m <;> simp [sendVia, hs] at h <;> exact h.symm

/-- C10: the convenience methods `Get`, `Head`, `Post` and `PostForm`
behave exactly like the wrapped plain standard client (they build the
request and hand it to the underlying client directly): they produce no
instrumentation effect and the request they send never carries the
`Request-UUID` or `Client-Name` header; only `Do` instruments — its trace
is non-empty and sets the `Request-UUID` request header. -/
theorem claim_C10_convenience_uninstrumented
    (send : PlainRequest → HttpCallOutcome)
    (url contentType body encodedData : String)
    (nrErr : Option String) (dinp : ClientDoInput) :
    clientGet send url nrErr = stdLibGet send url nrErr ∧
    clientHead send url nrErr = stdLibHead send url nrErr ∧
    clientPost send url contentType body nrErr =
      stdLibPost send url contentType body nrErr ∧
    clientPostForm send url encodedData nrErr =
      stdLibPostForm send url encodedData nrErr ∧
    (clientGet send url nrErr).events = [] ∧
    (clientHead send url nrErr).events = [] ∧
    (clientPost send url contentType body nrErr).events = [] ∧
    (clientPostForm send url encodedData nrErr).events = [] ∧
    (∀ req, (clientGet send url nrErr).sentRequest = some req →
      ∀ v : String, ("Request-UUID", v) ∉ req.headers ∧
        ("Client-Name", v) ∉ req.headers) ∧
    (∀ req, (clientHead send url nrErr).sentRequest = some req →
      ∀ v : String, ("Request-UUID", v) ∉ req.headers ∧
        ("Client-Name", v) ∉ req.headers) ∧
    (∀ req, (clientPost send url contentType body nrErr).sentRequest = some req →
      ∀ v : String, ("Request-UUID", v) ∉ req.headers ∧
        ("Client-Name", v) ∉ req.headers) ∧
    (∀ req, (clientPostForm send url encodedData nrErr).sentRequest = some req →
      ∀ v : String, ("Request-UUID", v) ∉ req.headers ∧
        ("Client-Name", v) ∉ req.headers) ∧
    ((clientDo dinp).events ≠ [] ∧
     Event.setRequestHeader "Request-UUID" ((clientDo dinp).reqHeaderUUID.getD "")
       ∈ (clientDo dinp).events) := by
  refine ⟨rfl, rfl, rfl, rfl, ?_, ?_, ?_, ?_, ?_, ?_, ?_, ?_, ?_, ?_⟩
  · rcases nrErr with _ | e
    · simpa [clientGet] using sendVia_events_nil send _
    · rfl
  · rcases nrErr with _ | e
    · simpa [clientHead] using sendVia_events_nil send _
    · rfl
  · rcases nrErr with _ | e
    · simpa [clientPost] using sendVia_events_nil send _
    · rfl
  · rcases nrErr with _ | e
    · simpa [clientPostForm, clientPost] using sendVia_events_nil send _
    · rfl
  · intro req hreq v
    rcases nrErr with _ | e
    · simp only [clientGet] at hreq
      have h := sendVia_sent_eq send _ req hreq
      subst h
      simp
    · simp [clientGet] at hreq
  · intro req hreq v
    rcases nrErr with _ | e
    · simp only [clientHead] at hreq
      have h := sendVia_sent_eq send _ req hreq
      subst h
      simp
    · simp [clientHead] at hreq
  · intro req hreq v
    rcases nrErr with _ | e
    · simp only [clientPost] at hreq
      have h := sendVia_sent_eq send _ req hreq
      subst h
      simp
    · simp [clientPost] at hreq
  · intro req hreq v
    rcases nrErr with _ | e
    · simp only [clientPostForm, clientPost] at hreq
      have h := sendVia_sent_eq send _ req hreq
      subst h
      simp
    · simp [clientPostForm, clientPost] at hreq
  · obtain ⟨dbg, method, url2, route, cu, onm, gen, outcome, dur⟩ := dinp
    rcases outcome with ⟨s⟩ | ⟨msg⟩ <;> simp [clientDo]
  · obtain ⟨dbg, method, url2, route, cu, onm, gen, outcome, dur⟩ := dinp
    rcases outcome with ⟨s⟩ | ⟨msg⟩ <;> simp [clientDo]

/-- Witness for C10 with a wrapped client that always answers 200. -/
theorem claim_C10_witness :
    clientGet (fun _ => .resp 200) "/u" none =
      stdLibGet (fun _ => .resp 200) "/u" none ∧
    (clientGet (fun _ => .resp 200) "/u" none).events = [] ∧
    (("Request-UUID", "x") ∉
      ({ method := "GET", url := "/u", headers := [], body := none } :
        PlainRequest).headers) ∧
    (clientDo
      { logInDebugLevel := false, method := "GET", url := "/u", route := "/u",
        ctxUUID := none, observerName := "me", genUUID := "g",
        outcome := .resp 200, duration := 1 }).events ≠ [] := by
  obtain ⟨h1, _, _, _, h5, _, _, _, h9, _, _, _, h13, _⟩ :=
    claim_C10_convenience_uninstrumented (fun _ => .resp 200) "/u" "ct" "b" "d"
      none
      { logInDebugLevel := false, method := "GET", url := "/u", route := "/u",
        ctxUUID := none, observerName := "me", genUUID := "g",
        outcome := .resp 200, duration := 1 }
  refine ⟨h1, h5, ?_, h13⟩
  exact (h9 { method := "GET", url := "/u", headers := [], body := none }
    rfl "x").1

end Observer
